import Mathlib

/-!
Shallow embedding of the three workflow tools of the repository
(`src/tools/textanalyze.py`, `src/tools/textrefactor.py`,
`src/tools/textreview.py`): the pydantic request models with their
validation rules, and the per-step decision methods
`should_embed_files_as_context`, `get_required_actions`,
`should_call_expert_analysis` and `prepare_expert_analysis_context`.

Python string values of the `Literal` enum fields become inductive types;
`structure` and `partial` are Lean keywords, so those two constructors carry
a trailing underscore while their rendered string keeps the source spelling.
Machine integers of the step counters are embedded as `Int` (Python ints are
unbounded). A pydantic request with possibly-missing fields is embedded as a
`Raw…Request` record of `Option`s; validation collects field errors in
declaration order, as pydantic does, and succeeds only when none arise.
-/

namespace ZenTextTools

/-- `Literal["structure", "themes", "arguments", "style", "readability", "general"]`
of `TextAnalyzeRequest.analysis_type`. -/
inductive AnalysisType
  | structure_
  | themes
  | arguments
  | style
  | readability
  | general
deriving DecidableEq

/-- The string value each `AnalysisType` constructor stands for. -/
def AnalysisType.toStr : AnalysisType → String
  | .structure_ => "structure"
  | .themes => "themes"
  | .arguments => "arguments"
  | .style => "style"
  | .readability => "readability"
  | .general => "general"

/-- Parse a string into the closed `analysis_type` vocabulary. -/
def AnalysisType.ofString? : String → Option AnalysisType
  | "structure" => some .structure_
  | "themes" => some .themes
  | "arguments" => some .arguments
  | "style" => some .style
  | "readability" => some .readability
  | "general" => some .general
  | _ => none

/-- `Literal["summary", "detailed", "actionable"]` of
`TextAnalyzeRequest.output_format`. -/
inductive OutputFormat
  | summary
  | detailed
  | actionable
deriving DecidableEq

def OutputFormat.ofString? : String → Option OutputFormat
  | "summary" => some .summary
  | "detailed" => some .detailed
  | "actionable" => some .actionable
  | _ => none

/-- `Literal["exploring", "low", "medium", "high", "very_high", "almost_certain", "certain"]`
of `TextAnalyzeRequest.confidence`. -/
inductive AnalyzeConfidence
  | exploring
  | low
  | medium
  | high
  | very_high
  | almost_certain
  | certain
deriving DecidableEq

def AnalyzeConfidence.toStr : AnalyzeConfidence → String
  | .exploring => "exploring"
  | .low => "low"
  | .medium => "medium"
  | .high => "high"
  | .very_high => "very_high"
  | .almost_certain => "almost_certain"
  | .certain => "certain"

def AnalyzeConfidence.ofString? : String → Option AnalyzeConfidence
  | "exploring" => some .exploring
  | "low" => some .low
  | "medium" => some .medium
  | "high" => some .high
  | "very_high" => some .very_high
  | "almost_certain" => some .almost_certain
  | "certain" => some .certain
  | _ => none

/-- `Literal["organization", "clarity", "arguments", "style", "flow"]` of
`TextRefactorRequest.refactor_type`. -/
inductive RefactorType
  | organization
  | clarity
  | arguments
  | style
  | flow
deriving DecidableEq

def RefactorType.toStr : RefactorType → String
  | .organization => "organization"
  | .clarity => "clarity"
  | .arguments => "arguments"
  | .style => "style"
  | .flow => "flow"

def RefactorType.ofString? : String → Option RefactorType
  | "organization" => some .organization
  | "clarity" => some .clarity
  | "arguments" => some .arguments
  | "style" => some .style
  | "flow" => some .flow
  | _ => none

/-- `Literal["exploring", "incomplete", "partial", "complete"]` of
`TextRefactorRequest.confidence`. -/
inductive RefactorConfidence
  | exploring
  | incomplete
  | partial_
  | complete
deriving DecidableEq

def RefactorConfidence.toStr : RefactorConfidence → String
  | .exploring => "exploring"
  | .incomplete => "incomplete"
  | .partial_ => "partial"
  | .complete => "complete"

def RefactorConfidence.ofString? : String → Option RefactorConfidence
  | "exploring" => some .exploring
  | "incomplete" => some .incomplete
  | "partial" => some .partial_
  | "complete" => some .complete
  | _ => none

/-- `Literal["comprehensive", "content", "structure", "clarity", "style"]` of
`TextReviewRequest.review_type`. -/
inductive ReviewType
  | comprehensive
  | content
  | structure_
  | clarity
  | style
deriving DecidableEq

def ReviewType.toStr : ReviewType → String
  | .comprehensive => "comprehensive"
  | .content => "content"
  | .structure_ => "structure"
  | .clarity => "clarity"
  | .style => "style"

def ReviewType.ofString? : String → Option ReviewType
  | "comprehensive" => some .comprehensive
  | "content" => some .content
  | "structure" => some .structure_
  | "clarity" => some .clarity
  | "style" => some .style
  | _ => none

/-- `Literal["critical", "high", "medium", "low", "all"]` of
`TextReviewRequest.severity_filter`. -/
inductive SeverityFilter
  | critical
  | high
  | medium
  | low
  | all
deriving DecidableEq

def SeverityFilter.ofString? : String → Option SeverityFilter
  | "critical" => some .critical
  | "high" => some .high
  | "medium" => some .medium
  | "low" => some .low
  | "all" => some .all
  | _ => none

/-- `ReviewConfidence`: the `confidence` vocabulary of `TextReviewRequest`,
declared in the source as its own `Literal` with the same seven values as
the Analyze tool's. -/
inductive ReviewConfidence
  | exploring
  | low
  | medium
  | high
  | very_high
  | almost_certain
  | certain
deriving DecidableEq

def ReviewConfidence.toStr : ReviewConfidence → String
  | .exploring => "exploring"
  | .low => "low"
  | .medium => "medium"
  | .high => "high"
  | .very_high => "very_high"
  | .almost_certain => "almost_certain"
  | .certain => "certain"

def ReviewConfidence.ofString? : String → Option ReviewConfidence
  | "exploring" => some .exploring
  | "low" => some .low
  | "medium" => some .medium
  | "high" => some .high
  | "very_high" => some .very_high
  | "almost_certain" => some .almost_certain
  | "certain" => some .certain
  | _ => none

/-- One entry of `issues_found` (`dict[str, Any]` in the source) embedded as an
ordered association list of string keys to string values. -/
abbrev Issue := List (String × String)

/-- Python `str()` of a dict of strings, as interpolated by `f"- \x7bissue\x7d"`
in `prepare_expert_analysis_context`. -/
def reprIssue (d : Issue) : String :=
  "\x7b" ++
    String.intercalate ", "
      ((d : List (String × String)).map
        (fun kv => "\x27" ++ kv.1 ++ "\x27: \x27" ++ kv.2 ++ "\x27")) ++
  "\x7d"

/-- Python `str.upper()` as applied to the ASCII classification literals:
uppercase each character. -/
def pyUpper (s : String) : String := String.mk (s.data.map Char.toUpper)

/-- `TextAnalyzeRequest` after successful pydantic validation: every field
carries its parsed value, with the source's defaults substituted for omitted
optional fields (`Optional[list[...]]` fields with `default_factory=list`
behave as the empty list). -/
structure TextAnalyzeRequest where
  step : String
  step_number : Int
  total_steps : Int
  next_step_required : Bool
  findings : String
  files_checked : List String
  relevant_files : List String
  relevant_context : List String
  issues_found : List Issue
  analysis_type : AnalysisType
  output_format : OutputFormat
  confidence : AnalyzeConfidence
  backtrack_from_step : Option Int
deriving DecidableEq

/-- The numeric constraints pydantic enforces on `TextAnalyzeRequest`
(`ge=1` on `step_number`, `total_steps` and, when present,
`backtrack_from_step`). -/
def TextAnalyzeRequest.Valid (r : TextAnalyzeRequest) : Prop :=
  1 ≤ r.step_number ∧ 1 ≤ r.total_steps ∧
    ∀ b ∈ r.backtrack_from_step, 1 ≤ b

instance (r : TextAnalyzeRequest) : Decidable r.Valid := by
  unfold TextAnalyzeRequest.Valid; infer_instance

/-- `TextRefactorRequest` after successful pydantic validation. -/
structure TextRefactorRequest where
  step : String
  step_number : Int
  total_steps : Int
  next_step_required : Bool
  findings : String
  files_checked : List String
  relevant_files : List String
  relevant_context : List String
  issues_found : List Issue
  refactor_type : RefactorType
  focus_areas : List String
  style_guide_examples : List String
  confidence : RefactorConfidence
  backtrack_from_step : Option Int
deriving DecidableEq

/-- The numeric constraints pydantic enforces on `TextRefactorRequest`. -/
def TextRefactorRequest.Valid (r : TextRefactorRequest) : Prop :=
  1 ≤ r.step_number ∧ 1 ≤ r.total_steps ∧
    ∀ b ∈ r.backtrack_from_step, 1 ≤ b

instance (r : TextRefactorRequest) : Decidable r.Valid := by
  unfold TextRefactorRequest.Valid; infer_instance

/-- `TextReviewRequest` after successful pydantic validation. -/
structure TextReviewRequest where
  step : String
  step_number : Int
  total_steps : Int
  next_step_required : Bool
  findings : String
  files_checked : List String
  relevant_files : List String
  relevant_context : List String
  issues_found : List Issue
  review_type : ReviewType
  severity_filter : SeverityFilter
  standards : Option String
  confidence : ReviewConfidence
  backtrack_from_step : Option Int
deriving DecidableEq

/-- The numeric constraints pydantic enforces on `TextReviewRequest`. -/
def TextReviewRequest.Valid (r : TextReviewRequest) : Prop :=
  1 ≤ r.step_number ∧ 1 ≤ r.total_steps ∧
    ∀ b ∈ r.backtrack_from_step, 1 ≤ b

instance (r : TextReviewRequest) : Decidable r.Valid := by
  unfold TextReviewRequest.Valid; infer_instance

namespace TextAnalyzeTool

/-- `TextAnalyzeTool.should_embed_files_as_context` (textanalyze.py lines
164-184): true on step 1, on non-empty `relevant_files` (Python truthiness),
or when `analysis_type` is one of `["structure", "themes", "arguments"]`. -/
def should_embed_files_as_context (r : TextAnalyzeRequest) : Bool :=
  if r.step_number == 1 then true
  else if !r.relevant_files.isEmpty then true
  else decide (r.analysis_type ∈ [AnalysisType.structure_, AnalysisType.themes, AnalysisType.arguments])

/-- `TextAnalyzeTool.get_required_actions` (textanalyze.py lines 186-205). -/
def get_required_actions (r : TextAnalyzeRequest) : List String :=
  if r.step_number == 1 then
    [ "Use Read tool to examine the text document(s) specified in relevant_files",
      "Understand the document structure and main content areas",
      "Identify key themes, arguments, and organizational patterns",
      "Map out the text structure and content flow" ]
  else
    [ "Continue investigating specific aspects identified in previous steps",
      "Use Read tool to examine additional sections or related documents",
      "Gather concrete evidence to support your analysis",
      "Build on previous findings with new insights" ]

/-- `TextAnalyzeTool.should_call_expert_analysis` (textanalyze.py lines
207-209): `request.confidence != "certain"`. -/
def should_call_expert_analysis (r : TextAnalyzeRequest) : Bool :=
  r.confidence != AnalyzeConfidence.certain

/-- The `context_parts` list built by
`TextAnalyzeTool.prepare_expert_analysis_context` (textanalyze.py lines
211-236), before the final `"\n".join`. -/
def expert_context_parts (r : TextAnalyzeRequest) : List String :=
  [ "TEXT ANALYSIS REQUEST - " ++ pyUpper r.analysis_type.toStr,
    "Analysis confidence: " ++ r.confidence.toStr,
    "Step " ++ toString r.step_number ++ " of " ++ toString r.total_steps,
    "",
    "ANALYSIS FINDINGS:",
    r.findings ]
  ++ (if r.issues_found.isEmpty then []
      else ["", "ISSUES IDENTIFIED:"] ++ r.issues_found.map (fun i => "- " ++ reprIssue i))
  ++ (if r.relevant_context.isEmpty then []
      else ["", "KEY THEMES/ARGUMENTS:"] ++ r.relevant_context.map (fun c => "- " ++ c))

/-- `TextAnalyzeTool.prepare_expert_analysis_context`: the joined payload. -/
def prepare_expert_analysis_context (r : TextAnalyzeRequest) : String :=
  String.intercalate "\n" (expert_context_parts r)

end TextAnalyzeTool

namespace TextRefactorTool

/-- `TextRefactorTool.should_embed_files_as_context` (textrefactor.py lines
162-187): true on step 1, on non-empty `relevant_files`, on non-empty
`style_guide_examples`, or when `refactor_type` is one of
`["organization", "clarity", "arguments"]`. -/
def should_embed_files_as_context (r : TextRefactorRequest) : Bool :=
  if r.step_number == 1 then true
  else if !r.relevant_files.isEmpty then true
  else if !r.style_guide_examples.isEmpty then true
  else decide (r.refactor_type ∈ [RefactorType.organization, RefactorType.clarity, RefactorType.arguments])

/-- `TextRefactorTool.get_required_actions` (textrefactor.py lines 189-208). -/
def get_required_actions (r : TextRefactorRequest) : List String :=
  if r.step_number == 1 then
    [ "Use Read tool to examine the text document(s) specified in relevant_files",
      "Analyze document organization and structure patterns",
      "Identify areas needing refactoring and improvement",
      "Map out potential reorganization strategies" ]
  else
    [ "Continue investigating specific refactoring opportunities identified in previous steps",
      "Use Read tool to examine problematic sections or style examples",
      "Gather concrete evidence for refactoring recommendations",
      "Build comprehensive improvement strategy" ]

/-- `TextRefactorTool.should_call_expert_analysis` (textrefactor.py lines
210-212): `request.confidence != "complete"`. -/
def should_call_expert_analysis (r : TextRefactorRequest) : Bool :=
  r.confidence != RefactorConfidence.complete

/-- The `context_parts` list built by
`TextRefactorTool.prepare_expert_analysis_context` (textrefactor.py lines
214-239), before the final `"\n".join`. -/
def expert_context_parts (r : TextRefactorRequest) : List String :=
  [ "TEXT REFACTORING REQUEST - " ++ pyUpper r.refactor_type.toStr,
    "Refactoring confidence: " ++ r.confidence.toStr,
    "Step " ++ toString r.step_number ++ " of " ++ toString r.total_steps,
    "",
    "REFACTORING FINDINGS:",
    r.findings ]
  ++ (if r.issues_found.isEmpty then []
      else ["", "REFACTORING OPPORTUNITIES:"] ++ r.issues_found.map (fun i => "- " ++ reprIssue i))
  ++ (if r.focus_areas.isEmpty then []
      else ["", "FOCUS AREAS:"] ++ r.focus_areas.map (fun a => "- " ++ a))

/-- `TextRefactorTool.prepare_expert_analysis_context`: the joined payload. -/
def prepare_expert_analysis_context (r : TextRefactorRequest) : String :=
  String.intercalate "\n" (expert_context_parts r)

end TextRefactorTool

namespace TextReviewTool

/-- `TextReviewTool.should_embed_files_as_context` (textreview.py lines
164-184): true on step 1, on non-empty `relevant_files`, or when
`review_type` is one of `["comprehensive", "content", "structure"]`. -/
def should_embed_files_as_context (r : TextReviewRequest) : Bool :=
  if r.step_number == 1 then true
  else if !r.relevant_files.isEmpty then true
  else decide (r.review_type ∈ [ReviewType.comprehensive, ReviewType.content, ReviewType.structure_])

/-- `TextReviewTool.get_required_actions` (textreview.py lines 186-205). -/
def get_required_actions (r : TextReviewRequest) : List String :=
  if r.step_number == 1 then
    [ "Use Read tool to examine the text document(s) specified in relevant_files",
      "Assess overall document quality and structure",
      "Identify potential issues and improvement opportunities",
      "Evaluate argument strength and clarity" ]
  else
    [ "Continue investigating specific quality aspects identified in previous steps",
      "Use Read tool to examine problem areas or related sections",
      "Gather concrete evidence for review assessments",
      "Build comprehensive quality evaluation" ]

/-- `TextReviewTool.should_call_expert_analysis` (textreview.py lines
207-209): `request.confidence != "certain"`. -/
def should_call_expert_analysis (r : TextReviewRequest) : Bool :=
  r.confidence != ReviewConfidence.certain

/-- The `context_parts` list built by
`TextReviewTool.prepare_expert_analysis_context` (textreview.py lines
211-229), before the final `"\n".join`. Unlike the other two tools, the
source appends no themes/focus section: `relevant_context` is never read. -/
def expert_context_parts (r : TextReviewRequest) : List String :=
  [ "TEXT REVIEW REQUEST - " ++ pyUpper r.review_type.toStr,
    "Review confidence: " ++ r.confidence.toStr,
    "Step " ++ toString r.step_number ++ " of " ++ toString r.total_steps,
    "",
    "REVIEW FINDINGS:",
    r.findings ]
  ++ (if r.issues_found.isEmpty then []
      else ["", "ISSUES IDENTIFIED:"] ++ r.issues_found.map (fun i => "- " ++ reprIssue i))

/-- `TextReviewTool.prepare_expert_analysis_context`: the joined payload. -/
def prepare_expert_analysis_context (r : TextReviewRequest) : String :=
  String.intercalate "\n" (expert_context_parts r)

end TextReviewTool

/-- One pydantic validation error: the offending field's name and a
description of the violated constraint. -/
structure FieldError where
  field : String
  constraint : String
deriving DecidableEq

/-- pydantic's message for a missing required field. -/
def requiredMsg : String := "Field required"

/-- pydantic's message for violating `ge=1`. -/
def geOneMsg : String := "Input should be greater than or equal to 1"

/-- pydantic's message kind for a value outside a `Literal` vocabulary. -/
def literalMsg : String := "Input should be a valid enumeration member"

/-- Errors contributed by a required field (`Field(...)`): one `Field required`
error when absent, none otherwise. -/
def reqErr {α : Type} (name : String) (o : Option α) : List FieldError :=
  match o with
  | none => [⟨name, requiredMsg⟩]
  | some _ => []

/-- Errors contributed by a required `int` field with `ge=1`. -/
def geOneErr (name : String) (o : Option Int) : List FieldError :=
  match o with
  | none => [⟨name, requiredMsg⟩]
  | some n => if n < 1 then [⟨name, geOneMsg⟩] else []

/-- Errors contributed by an optional `int` field with `ge=1` and default
`None` (`backtrack_from_step`). -/
def optGeOneErr (name : String) (o : Option Int) : List FieldError :=
  match o with
  | none => []
  | some n => if n < 1 then [⟨name, geOneMsg⟩] else []

/-- Errors contributed by a `Literal[...]` field with a default: absent is
fine (the default applies), a present value must parse into the closed
vocabulary. -/
def litErr {α : Type} (name : String) (parse : String → Option α)
    (o : Option String) : List FieldError :=
  match o with
  | none => []
  | some s => if (parse s).isSome then [] else [⟨name, literalMsg⟩]

/-- Parsed value of a `Literal[...]` field with default `dflt`: the default
when absent; the parsed value when present (only consulted by the validators
on the error-free path, where parsing succeeds). -/
def parseLit {α : Type} (parse : String → Option α) (dflt : α)
    (o : Option String) : α :=
  match o with
  | none => dflt
  | some s => (parse s).getD dflt

/-- A `TextAnalyzeRequest` submission before validation: each field either
present with a value or absent (`none`). List-typed fields and
`backtrack_from_step` translate absence to their defaults directly, as the
decision logic treats `None` and the default identically. -/
structure RawTextAnalyzeRequest where
  step : Option String
  step_number : Option Int
  total_steps : Option Int
  next_step_required : Option Bool
  findings : Option String
  files_checked : Option (List String)
  relevant_files : Option (List String)
  relevant_context : Option (List String)
  issues_found : Option (List Issue)
  analysis_type : Option String
  output_format : Option String
  confidence : Option String
  backtrack_from_step : Option Int
deriving DecidableEq

/-- All validation errors pydantic raises for a raw Analyze submission, in
field-declaration order. `issues_found` entries contribute none: the source
annotates them as `list[dict[str, Any]]`, unconstrained. -/
def analyzeErrors (r : RawTextAnalyzeRequest) : List FieldError :=
  reqErr "step" r.step ++
  geOneErr "step_number" r.step_number ++
  geOneErr "total_steps" r.total_steps ++
  reqErr "next_step_required" r.next_step_required ++
  reqErr "findings" r.findings ++
  litErr "analysis_type" AnalysisType.ofString? r.analysis_type ++
  litErr "output_format" OutputFormat.ofString? r.output_format ++
  litErr "confidence" AnalyzeConfidence.ofString? r.confidence ++
  optGeOneErr "backtrack_from_step" r.backtrack_from_step

/-- The record a valid raw Analyze submission parses to, with the source's
defaults (`analysis_type="general"`, `output_format="detailed"`,
`confidence="exploring"`, empty lists). -/
def parseTextAnalyze (r : RawTextAnalyzeRequest) : TextAnalyzeRequest where
  step := r.step.getD ""
  step_number := r.step_number.getD 1
  total_steps := r.total_steps.getD 1
  next_step_required := r.next_step_required.getD false
  findings := r.findings.getD ""
  files_checked := r.files_checked.getD []
  relevant_files := r.relevant_files.getD []
  relevant_context := r.relevant_context.getD []
  issues_found := r.issues_found.getD []
  analysis_type := parseLit AnalysisType.ofString? .general r.analysis_type
  output_format := parseLit OutputFormat.ofString? .detailed r.output_format
  confidence := parseLit AnalyzeConfidence.ofString? .exploring r.confidence
  backtrack_from_step := r.backtrack_from_step

/-- pydantic validation of a raw Analyze submission: all-or-nothing — the
parsed record when no field errs, the full error list otherwise. -/
def validateTextAnalyze (r : RawTextAnalyzeRequest) :
    Except (List FieldError) TextAnalyzeRequest :=
  if analyzeErrors r = [] then .ok (parseTextAnalyze r)
  else .error (analyzeErrors r)

/-- A `TextRefactorRequest` submission before validation. -/
structure RawTextRefactorRequest where
  step : Option String
  step_number : Option Int
  total_steps : Option Int
  next_step_required : Option Bool
  findings : Option String
  files_checked : Option (List String)
  relevant_files : Option (List String)
  relevant_context : Option (List String)
  issues_found : Option (List Issue)
  refactor_type : Option String
  focus_areas : Option (List String)
  style_guide_examples : Option (List String)
  confidence : Option String
  backtrack_from_step : Option Int
deriving DecidableEq

/-- All validation errors for a raw Refactor submission, in declaration
order. -/
def refactorErrors (r : RawTextRefactorRequest) : List FieldError :=
  reqErr "step" r.step ++
  geOneErr "step_number" r.step_number ++
  geOneErr "total_steps" r.total_steps ++
  reqErr "next_step_required" r.next_step_required ++
  reqErr "findings" r.findings ++
  litErr "refactor_type" RefactorType.ofString? r.refactor_type ++
  litErr "confidence" RefactorConfidence.ofString? r.confidence ++
  optGeOneErr "backtrack_from_step" r.backtrack_from_step

/-- The record a valid raw Refactor submission parses to, with the source's
defaults (`refactor_type="organization"`, `confidence="incomplete"`). -/
def parseTextRefactor (r : RawTextRefactorRequest) : TextRefactorRequest where
  step := r.step.getD ""
  step_number := r.step_number.getD 1
  total_steps := r.total_steps.getD 1
  next_step_required := r.next_step_required.getD false
  findings := r.findings.getD ""
  files_checked := r.files_checked.getD []
  relevant_files := r.relevant_files.getD []
  relevant_context := r.relevant_context.getD []
  issues_found := r.issues_found.getD []
  refactor_type := parseLit RefactorType.ofString? .organization r.refactor_type
  focus_areas := r.focus_areas.getD []
  style_guide_examples := r.style_guide_examples.getD []
  confidence := parseLit RefactorConfidence.ofString? .incomplete r.confidence
  backtrack_from_step := r.backtrack_from_step

/-- pydantic validation of a raw Refactor submission. -/
def validateTextRefactor (r : RawTextRefactorRequest) :
    Except (List FieldError) TextRefactorRequest :=
  if refactorErrors r = [] then .ok (parseTextRefactor r)
  else .error (refactorErrors r)

/-- A `TextReviewRequest` submission before validation. -/
structure RawTextReviewRequest where
  step : Option String
  step_number : Option Int
  total_steps : Option Int
  next_step_required : Option Bool
  findings : Option String
  files_checked : Option (List String)
  relevant_files : Option (List String)
  relevant_context : Option (List String)
  issues_found : Option (List Issue)
  review_type : Option String
  severity_filter : Option String
  standards : Option String
  confidence : Option String
  backtrack_from_step : Option Int
deriving DecidableEq

/-- All validation errors for a raw Review submission, in declaration
order. `standards` is an unconstrained optional string. -/
def reviewErrors (r : RawTextReviewRequest) : List FieldError :=
  reqErr "step" r.step ++
  geOneErr "step_number" r.step_number ++
  geOneErr "total_steps" r.total_steps ++
  reqErr "next_step_required" r.next_step_required ++
  reqErr "findings" r.findings ++
  litErr "review_type" ReviewType.ofString? r.review_type ++
  litErr "severity_filter" SeverityFilter.ofString? r.severity_filter ++
  litErr "confidence" ReviewConfidence.ofString? r.confidence ++
  optGeOneErr "backtrack_from_step" r.backtrack_from_step

/-- The record a valid raw Review submission parses to, with the source's
defaults (`review_type="comprehensive"`, `severity_filter="all"`,
`confidence="exploring"`, `standards=None`). -/
def parseTextReview (r : RawTextReviewRequest) : TextReviewRequest where
  step := r.step.getD ""
  step_number := r.step_number.getD 1
  total_steps := r.total_steps.getD 1
  next_step_required := r.next_step_required.getD false
  findings := r.findings.getD ""
  files_checked := r.files_checked.getD []
  relevant_files := r.relevant_files.getD []
  relevant_context := r.relevant_context.getD []
  issues_found := r.issues_found.getD []
  review_type := parseLit ReviewType.ofString? .comprehensive r.review_type
  severity_filter := parseLit SeverityFilter.ofString? .all r.severity_filter
  standards := r.standards
  confidence := parseLit ReviewConfidence.ofString? .exploring r.confidence
  backtrack_from_step := r.backtrack_from_step

/-- pydantic validation of a raw Review submission. -/
def validateTextReview (r : RawTextReviewRequest) :
    Except (List FieldError) TextReviewRequest :=
  if reviewErrors r = [] then .ok (parseTextReview r)
  else .error (reviewErrors r)

/-! Helper lemmas shared by the claim theorems. -/

theorem reqErr_some {α : Type} (name : String) (a : α) :
    reqErr name (some a) = [] := rfl

theorem reqErr_field {α : Type} {name : String} {o : Option α} {e : FieldError}
    (h : e ∈ reqErr name o) : e.field = name := by
  cases o with
  | none => simp [reqErr] at h; subst h; rfl
  | some _ => simp [reqErr] at h

theorem geOneErr_field {name : String} {o : Option Int} {e : FieldError}
    (h : e ∈ geOneErr name o) : e.field = name := by
  cases o with
  | none => simp [geOneErr] at h; subst h; rfl
  | some n =>
    by_cases hn : n < 1
    · simp [geOneErr, hn] at h; subst h; rfl
    · simp [geOneErr, hn] at h

theorem optGeOneErr_field {name : String} {o : Option Int} {e : FieldError}
    (h : e ∈ optGeOneErr name o) : e.field = name := by
  cases o with
  | none => simp [optGeOneErr] at h
  | some n =>
    by_cases hn : n < 1
    · simp [optGeOneErr, hn] at h; subst h; rfl
    · simp [optGeOneErr, hn] at h

theorem litErr_field {α : Type} {name : String} {parse : String → Option α}
    {o : Option String} {e : FieldError}
    (h : e ∈ litErr name parse o) : e.field = name := by
  cases o with
  | none => simp [litErr] at h
  | some s =>
    by_cases hs : (parse s).isSome
    · simp [litErr, hs] at h
    · simp [litErr, hs] at h; subst h; rfl

theorem validateTextAnalyze_error {r : RawTextAnalyzeRequest} {e : FieldError}
    (h : e ∈ analyzeErrors r) :
    validateTextAnalyze r = .error (analyzeErrors r) := by
  have hne := List.ne_nil_of_mem h
  simp [validateTextAnalyze, hne]

theorem validateTextRefactor_error {r : RawTextRefactorRequest} {e : FieldError}
    (h : e ∈ refactorErrors r) :
    validateTextRefactor r = .error (refactorErrors r) := by
  have hne := List.ne_nil_of_mem h
  simp [validateTextRefactor, hne]

theorem validateTextReview_error {r : RawTextReviewRequest} {e : FieldError}
    (h : e ∈ reviewErrors r) :
    validateTextReview r = .error (reviewErrors r) := by
  have hne := List.ne_nil_of_mem h
  simp [validateTextReview, hne]

/-! Sample records used by the witness theorems. -/

/-- The end-to-end scenario of the spec: Analyze tool, step 1,
`relevant_files=["/doc.md"]`, `confidence="exploring"`. -/
def sampleAnalyze : TextAnalyzeRequest where
  step := "plan the analysis"
  step_number := 1
  total_steps := 2
  next_step_required := true
  findings := "initial findings"
  files_checked := []
  relevant_files := ["/doc.md"]
  relevant_context := []
  issues_found := []
  analysis_type := .general
  output_format := .detailed
  confidence := .exploring
  backtrack_from_step := none

/-- A later-step Refactor record with a non-content-heavy classification. -/
def sampleRefactor : TextRefactorRequest where
  step := "tighten transitions"
  step_number := 2
  total_steps := 3
  next_step_required := true
  findings := "flow notes"
  files_checked := []
  relevant_files := []
  relevant_context := []
  issues_found := []
  refactor_type := .flow
  focus_areas := []
  style_guide_examples := []
  confidence := .partial_
  backtrack_from_step := none

/-- A terminal-confidence Review record. -/
def sampleReview : TextReviewRequest where
  step := "final pass"
  step_number := 2
  total_steps := 2
  next_step_required := false
  findings := "review findings"
  files_checked := []
  relevant_files := []
  relevant_context := []
  issues_found := []
  review_type := .style
  severity_filter := .all
  standards := none
  confidence := .certain
  backtrack_from_step := none

/-! The claim theorems. -/

/-- C1: for every StepRecord, each tool's `needs_expert_analysis` decision is
true exactly when `confidence` is not the tool's terminal value — `certain`
for Analyze and Review, `complete` for Refactor — and no other field of the
record influences the decision. -/
theorem C1_expert_gate :
    (∀ r : TextAnalyzeRequest,
        TextAnalyzeTool.should_call_expert_analysis r = true ↔
          r.confidence ≠ AnalyzeConfidence.certain) ∧
    (∀ r : TextRefactorRequest,
        TextRefactorTool.should_call_expert_analysis r = true ↔
          r.confidence ≠ RefactorConfidence.complete) ∧
    (∀ r : TextReviewRequest,
        TextReviewTool.should_call_expert_analysis r = true ↔
          r.confidence ≠ ReviewConfidence.certain) ∧
    (∀ r s : TextAnalyzeRequest, r.confidence = s.confidence →
        TextAnalyzeTool.should_call_expert_analysis r =
          TextAnalyzeTool.should_call_expert_analysis s) ∧
    (∀ r s : TextRefactorRequest, r.confidence = s.confidence →
        TextRefactorTool.should_call_expert_analysis r =
          TextRefactorTool.should_call_expert_analysis s) ∧
    (∀ r s : TextReviewRequest, r.confidence = s.confidence →
        TextReviewTool.should_call_expert_analysis r =
          TextReviewTool.should_call_expert_analysis s) := by
  refine ⟨fun r => ?_, fun r => ?_, fun r => ?_,
    fun r s h => ?_, fun r s h => ?_, fun r s h => ?_⟩
  · simp [TextAnalyzeTool.should_call_expert_analysis, bne_iff_ne]
  · simp [TextRefactorTool.should_call_expert_analysis, bne_iff_ne]
  · simp [TextReviewTool.should_call_expert_analysis, bne_iff_ne]
  · simp [TextAnalyzeTool.should_call_expert_analysis, h]
  · simp [TextRefactorTool.should_call_expert_analysis, h]
  · simp [TextReviewTool.should_call_expert_analysis, h]

/-- Witness for C1 at concrete records: the exploring Analyze record needs
expert analysis, the `complete` Refactor gate and the `certain` Review gate
close. -/
theorem C1_expert_gate_witness :
    TextAnalyzeTool.should_call_expert_analysis sampleAnalyze = true ∧
    TextReviewTool.should_call_expert_analysis sampleReview ≠ true ∧
    TextRefactorTool.should_call_expert_analysis sampleRefactor =
      TextRefactorTool.should_call_expert_analysis sampleRefactor :=
  ⟨(C1_expert_gate.1 sampleAnalyze).mpr (by decide),
   fun h => ((C1_expert_gate.2.2.1 sampleReview).mp h) rfl,
   C1_expert_gate.2.2.2.2.1 sampleRefactor sampleRefactor rfl⟩

/-- C2: each tool's `embed_files` decision is true exactly when the step is
the first, `relevant_files` is non-empty, the classification lies in the
tool's content-heavy subset, or — Refactor only — `style_guide_examples` is
non-empty. -/
theorem C2_embed_files :
    (∀ r : TextAnalyzeRequest,
        TextAnalyzeTool.should_embed_files_as_context r = true ↔
          (r.step_number = 1 ∨ r.relevant_files ≠ [] ∨
            r.analysis_type ∈
              [AnalysisType.structure_, AnalysisType.themes, AnalysisType.arguments])) ∧
    (∀ r : TextRefactorRequest,
        TextRefactorTool.should_embed_files_as_context r = true ↔
          (r.step_number = 1 ∨ r.relevant_files ≠ [] ∨
            r.refactor_type ∈
              [RefactorType.organization, RefactorType.clarity, RefactorType.arguments] ∨
            r.style_guide_examples ≠ [])) ∧
    (∀ r : TextReviewRequest,
        TextReviewTool.should_embed_files_as_context r = true ↔
          (r.step_number = 1 ∨ r.relevant_files ≠ [] ∨
            r.review_type ∈
              [ReviewType.comprehensive, ReviewType.content, ReviewType.structure_])) := by
  refine ⟨fun r => ?_, fun r => ?_, fun r => ?_⟩
  · constructor
    · intro hb
      unfold TextAnalyzeTool.should_embed_files_as_context at hb
      split_ifs at hb with h1 h2
      · exact Or.inl (by simpa [beq_iff_eq] using h1)
      · exact Or.inr (Or.inl (by simpa [List.isEmpty_iff] using h2))
      · exact Or.inr (Or.inr (by simpa using hb))
    · intro hd
      unfold TextAnalyzeTool.should_embed_files_as_context
      rcases hd with h | h | h
      · simp [h]
      · simp [List.isEmpty_iff, h]
      · simp [h]
  · constructor
    · intro hb
      unfold TextRefactorTool.should_embed_files_as_context at hb
      split_ifs at hb with h1 h2 h3
      · exact Or.inl (by simpa [beq_iff_eq] using h1)
      · exact Or.inr (Or.inl (by simpa [List.isEmpty_iff] using h2))
      · exact Or.inr (Or.inr (Or.inr (by simpa [List.isEmpty_iff] using h3)))
      · exact Or.inr (Or.inr (Or.inl (by simpa using hb)))
    · intro hd
      unfold TextRefactorTool.should_embed_files_as_context
      rcases hd with h | h | h | h
      · simp [h]
      · simp [List.isEmpty_iff, h]
      · simp [h]
      · simp [List.isEmpty_iff, h]
  · constructor
    · intro hb
      unfold TextReviewTool.should_embed_files_as_context at hb
      split_ifs at hb with h1 h2
      · exact Or.inl (by simpa [beq_iff_eq] using h1)
      · exact Or.inr (Or.inl (by simpa [List.isEmpty_iff] using h2))
      · exact Or.inr (Or.inr (by simpa using hb))
    · intro hd
      unfold TextReviewTool.should_embed_files_as_context
      rcases hd with h | h | h
      · simp [h]
      · simp [List.isEmpty_iff, h]
      · simp [h]

/-- Witness for C2: the step-1 Analyze record embeds files; the later-step
`flow` Refactor record with empty lists does not (via the mpr direction at a
record where the disjunction fails the iff forces false is not needed — we
instantiate the iff both ways). -/
theorem C2_embed_files_witness :
    TextAnalyzeTool.should_embed_files_as_context sampleAnalyze = true ∧
    TextReviewTool.should_embed_files_as_context sampleReview ≠ true :=
  ⟨(C2_embed_files.1 sampleAnalyze).mpr (Or.inl rfl),
   fun h => by
    rcases (C2_embed_files.2.2 sampleReview).mp h with h1 | h1 | h1 <;>
      revert h1 <;> decide⟩

/-- C7: each tool's `required_actions` is one of two fixed four-string lists,
selected solely by `stepNumber == 1` versus a later step; no other field of
the record affects the result. -/
theorem C7_required_actions :
    (∀ r : TextAnalyzeRequest, r.step_number = 1 →
        TextAnalyzeTool.get_required_actions r =
          [ "Use Read tool to examine the text document(s) specified in relevant_files",
            "Understand the document structure and main content areas",
            "Identify key themes, arguments, and organizational patterns",
            "Map out the text structure and content flow" ]) ∧
    (∀ r : TextAnalyzeRequest, 1 < r.step_number →
        TextAnalyzeTool.get_required_actions r =
          [ "Continue investigating specific aspects identified in previous steps",
            "Use Read tool to examine additional sections or related documents",
            "Gather concrete evidence to support your analysis",
            "Build on previous findings with new insights" ]) ∧
    (∀ r : TextRefactorRequest, r.step_number = 1 →
        TextRefactorTool.get_required_actions r =
          [ "Use Read tool to examine the text document(s) specified in relevant_files",
            "Analyze document organization and structure patterns",
            "Identify areas needing refactoring and improvement",
            "Map out potential reorganization strategies" ]) ∧
    (∀ r : TextRefactorRequest, 1 < r.step_number →
        TextRefactorTool.get_required_actions r =
          [ "Continue investigating specific refactoring opportunities identified in previous steps",
            "Use Read tool to examine problematic sections or style examples",
            "Gather concrete evidence for refactoring recommendations",
            "Build comprehensive improvement strategy" ]) ∧
    (∀ r : TextReviewRequest, r.step_number = 1 →
        TextReviewTool.get_required_actions r =
          [ "Use Read tool to examine the text document(s) specified in relevant_files",
            "Assess overall document quality and structure",
            "Identify potential issues and improvement opportunities",
            "Evaluate argument strength and clarity" ]) ∧
    (∀ r : TextReviewRequest, 1 < r.step_number →
        TextReviewTool.get_required_actions r =
          [ "Continue investigating specific quality aspects identified in previous steps",
            "Use Read tool to examine problem areas or related sections",
            "Gather concrete evidence for review assessments",
            "Build comprehensive quality evaluation" ]) ∧
    (∀ r s : TextAnalyzeRequest, r.step_number = s.step_number →
        TextAnalyzeTool.get_required_actions r =
          TextAnalyzeTool.get_required_actions s) ∧
    (∀ r s : TextRefactorRequest, r.step_number = s.step_number →
        TextRefactorTool.get_required_actions r =
          TextRefactorTool.get_required_actions s) ∧
    (∀ r s : TextReviewRequest, r.step_number = s.step_number →
        TextReviewTool.get_required_actions r =
          TextReviewTool.get_required_actions s) := by
  refine ⟨fun r h => ?_, fun r h => ?_, fun r h => ?_, fun r h => ?_,
    fun r h => ?_, fun r h => ?_,
    fun r s h => ?_, fun r s h => ?_, fun r s h => ?_⟩
  · simp [TextAnalyzeTool.get_required_actions, h]
  · have hb : r.step_number ≠ 1 := by omega
    simp [TextAnalyzeTool.get_required_actions, hb]
  · simp [TextRefactorTool.get_required_actions, h]
  · have hb : r.step_number ≠ 1 := by omega
    simp [TextRefactorTool.get_required_actions, hb]
  · simp [TextReviewTool.get_required_actions, h]
  · have hb : r.step_number ≠ 1 := by omega
    simp [TextReviewTool.get_required_actions, hb]
  · simp [TextAnalyzeTool.get_required_actions, h]
  · simp [TextRefactorTool.get_required_actions, h]
  · simp [TextReviewTool.get_required_actions, h]

/-- Witness for C7: the spec's step-1 Analyze scenario yields the four
step-1 action strings, and the later-step Refactor record the later-step
strings. -/
theorem C7_required_actions_witness :
    TextAnalyzeTool.get_required_actions sampleAnalyze =
      [ "Use Read tool to examine the text document(s) specified in relevant_files",
        "Understand the document structure and main content areas",
        "Identify key themes, arguments, and organizational patterns",
        "Map out the text structure and content flow" ] ∧
    TextRefactorTool.get_required_actions sampleRefactor =
      [ "Continue investigating specific refactoring opportunities identified in previous steps",
        "Use Read tool to examine problematic sections or style examples",
        "Gather concrete evidence for refactoring recommendations",
        "Build comprehensive improvement strategy" ] :=
  ⟨C7_required_actions.1 sampleAnalyze rfl,
   C7_required_actions.2.2.2.1 sampleRefactor (by decide)⟩

/-- C3: a StepRecord missing `findings`, or with `stepNumber == 0`, fails
validation in every tool with a ValidationError naming the offending field
and the violated constraint; the record is wholly rejected — the validator
returns an error, so no decision derivation can run on it. -/
theorem C3_required_field_rejection :
    (∀ r : RawTextAnalyzeRequest, r.findings = none →
        ∃ errs, validateTextAnalyze r = .error errs ∧
          (⟨"findings", requiredMsg⟩ : FieldError) ∈ errs) ∧
    (∀ r : RawTextAnalyzeRequest, r.step_number = some 0 →
        ∃ errs, validateTextAnalyze r = .error errs ∧
          (⟨"step_number", geOneMsg⟩ : FieldError) ∈ errs) ∧
    (∀ r : RawTextRefactorRequest, r.findings = none →
        ∃ errs, validateTextRefactor r = .error errs ∧
          (⟨"findings", requiredMsg⟩ : FieldError) ∈ errs) ∧
    (∀ r : RawTextRefactorRequest, r.step_number = some 0 →
        ∃ errs, validateTextRefactor r = .error errs ∧
          (⟨"step_number", geOneMsg⟩ : FieldError) ∈ errs) ∧
    (∀ r : RawTextReviewRequest, r.findings = none →
        ∃ errs, validateTextReview r = .error errs ∧
          (⟨"findings", requiredMsg⟩ : FieldError) ∈ errs) ∧
    (∀ r : RawTextReviewRequest, r.step_number = some 0 →
        ∃ errs, validateTextReview r = .error errs ∧
          (⟨"step_number", geOneMsg⟩ : FieldError) ∈ errs) := by
  refine ⟨fun r h => ?_, fun r h => ?_, fun r h => ?_,
    fun r h => ?_, fun r h => ?_, fun r h => ?_⟩
  · have hm : (⟨"findings", requiredMsg⟩ : FieldError) ∈ analyzeErrors r := by
      simp [analyzeErrors, reqErr, h]
    exact ⟨_, validateTextAnalyze_error hm, hm⟩
  · have hm : (⟨"step_number", geOneMsg⟩ : FieldError) ∈ analyzeErrors r := by
      simp [analyzeErrors, geOneErr, h]
    exact ⟨_, validateTextAnalyze_error hm, hm⟩
  · have hm : (⟨"findings", requiredMsg⟩ : FieldError) ∈ refactorErrors r := by
      simp [refactorErrors, reqErr, h]
    exact ⟨_, validateTextRefactor_error hm, hm⟩
  · have hm : (⟨"step_number", geOneMsg⟩ : FieldError) ∈ refactorErrors r := by
      simp [refactorErrors, geOneErr, h]
    exact ⟨_, validateTextRefactor_error hm, hm⟩
  · have hm : (⟨"findings", requiredMsg⟩ : FieldError) ∈ reviewErrors r := by
      simp [reviewErrors, reqErr, h]
    exact ⟨_, validateTextReview_error hm, hm⟩
  · have hm : (⟨"step_number", geOneMsg⟩ : FieldError) ∈ reviewErrors r := by
      simp [reviewErrors, geOneErr, h]
    exact ⟨_, validateTextReview_error hm, hm⟩

/-- A raw Analyze submission missing `findings` and carrying
`step_number = 0`. -/
def c3RawAnalyze : RawTextAnalyzeRequest where
  step := some "start"
  step_number := some 0
  total_steps := some 1
  next_step_required := some true
  findings := none
  files_checked := none
  relevant_files := none
  relevant_context := none
  issues_found := none
  analysis_type := none
  output_format := none
  confidence := none
  backtrack_from_step := none

/-- A raw Refactor submission missing `findings`. -/
def c3RawRefactor : RawTextRefactorRequest where
  step := some "start"
  step_number := some 1
  total_steps := some 1
  next_step_required := some true
  findings := none
  files_checked := none
  relevant_files := none
  relevant_context := none
  issues_found := none
  refactor_type := none
  focus_areas := none
  style_guide_examples := none
  confidence := none
  backtrack_from_step := none

/-- A raw Review submission with `step_number = 0`. -/
def c3RawReview : RawTextReviewRequest where
  step := some "start"
  step_number := some 0
  total_steps := some 1
  next_step_required := some true
  findings := some "notes"
  files_checked := none
  relevant_files := none
  relevant_context := none
  issues_found := none
  review_type := none
  severity_filter := none
  standards := none
  confidence := none
  backtrack_from_step := none

/-- Witness for C3 at concrete malformed submissions for all three tools. -/
theorem C3_required_field_rejection_witness :
    (∃ errs, validateTextAnalyze c3RawAnalyze = .error errs ∧
      (⟨"findings", requiredMsg⟩ : FieldError) ∈ errs) ∧
    (∃ errs, validateTextAnalyze c3RawAnalyze = .error errs ∧
      (⟨"step_number", geOneMsg⟩ : FieldError) ∈ errs) ∧
    (∃ errs, validateTextRefactor c3RawRefactor = .error errs ∧
      (⟨"findings", requiredMsg⟩ : FieldError) ∈ errs) ∧
    (∃ errs, validateTextReview c3RawReview = .error errs ∧
      (⟨"step_number", geOneMsg⟩ : FieldError) ∈ errs) :=
  ⟨C3_required_field_rejection.1 c3RawAnalyze rfl,
   C3_required_field_rejection.2.1 c3RawAnalyze rfl,
   C3_required_field_rejection.2.2.1 c3RawRefactor rfl,
   C3_required_field_rejection.2.2.2.2.2 c3RawReview rfl⟩

/-- C6: the closed enum vocabularies are enforced — `analysisType="unknown"`
fails Analyze validation, `confidence="certain"` fails Refactor validation,
and in general any value of a classification or confidence field that the
owning tool's vocabulary does not parse — all six tool-field pairs — is
rejected with an error naming the field. -/
theorem C6_enum_rejection :
    (∀ r : RawTextAnalyzeRequest, r.analysis_type = some "unknown" →
        ∃ errs, validateTextAnalyze r = .error errs ∧
          (⟨"analysis_type", literalMsg⟩ : FieldError) ∈ errs) ∧
    (∀ r : RawTextRefactorRequest, r.confidence = some "certain" →
        ∃ errs, validateTextRefactor r = .error errs ∧
          (⟨"confidence", literalMsg⟩ : FieldError) ∈ errs) ∧
    (∀ (r : RawTextAnalyzeRequest) (s : String),
        r.analysis_type = some s → AnalysisType.ofString? s = none →
        ∃ errs, validateTextAnalyze r = .error errs ∧
          (⟨"analysis_type", literalMsg⟩ : FieldError) ∈ errs) ∧
    (∀ (r : RawTextRefactorRequest) (s : String),
        r.confidence = some s → RefactorConfidence.ofString? s = none →
        ∃ errs, validateTextRefactor r = .error errs ∧
          (⟨"confidence", literalMsg⟩ : FieldError) ∈ errs) ∧
    (∀ (r : RawTextReviewRequest) (s : String),
        r.review_type = some s → ReviewType.ofString? s = none →
        ∃ errs, validateTextReview r = .error errs ∧
          (⟨"review_type", literalMsg⟩ : FieldError) ∈ errs) ∧
    (∀ (r : RawTextReviewRequest) (s : String),
        r.confidence = some s → ReviewConfidence.ofString? s = none →
        ∃ errs, validateTextReview r = .error errs ∧
          (⟨"confidence", literalMsg⟩ : FieldError) ∈ errs) ∧
    (∀ (r : RawTextAnalyzeRequest) (s : String),
        r.confidence = some s → AnalyzeConfidence.ofString? s = none →
        ∃ errs, validateTextAnalyze r = .error errs ∧
          (⟨"confidence", literalMsg⟩ : FieldError) ∈ errs) ∧
    (∀ (r : RawTextRefactorRequest) (s : String),
        r.refactor_type = some s → RefactorType.ofString? s = none →
        ∃ errs, validateTextRefactor r = .error errs ∧
          (⟨"refactor_type", literalMsg⟩ : FieldError) ∈ errs) := by
  refine ⟨fun r h => ?_, fun r h => ?_, fun r s h hs => ?_,
    fun r s h hs => ?_, fun r s h hs => ?_, fun r s h hs => ?_,
    fun r s h hs => ?_, fun r s h hs => ?_⟩
  · have hm : (⟨"analysis_type", literalMsg⟩ : FieldError) ∈ analyzeErrors r := by
      simp [analyzeErrors, litErr, h,
        (show AnalysisType.ofString? "unknown" = none from rfl)]
    exact ⟨_, validateTextAnalyze_error hm, hm⟩
  · have hm : (⟨"confidence", literalMsg⟩ : FieldError) ∈ refactorErrors r := by
      simp [refactorErrors, litErr, h,
        (show RefactorConfidence.ofString? "certain" = none from rfl)]
    exact ⟨_, validateTextRefactor_error hm, hm⟩
  · have hm : (⟨"analysis_type", literalMsg⟩ : FieldError) ∈ analyzeErrors r := by
      simp [analyzeErrors, litErr, h, hs]
    exact ⟨_, validateTextAnalyze_error hm, hm⟩
  · have hm : (⟨"confidence", literalMsg⟩ : FieldError) ∈ refactorErrors r := by
      simp [refactorErrors, litErr, h, hs]
    exact ⟨_, validateTextRefactor_error hm, hm⟩
  · have hm : (⟨"review_type", literalMsg⟩ : FieldError) ∈ reviewErrors r := by
      simp [reviewErrors, litErr, h, hs]
    exact ⟨_, validateTextReview_error hm, hm⟩
  · have hm : (⟨"confidence", literalMsg⟩ : FieldError) ∈ reviewErrors r := by
      simp [reviewErrors, litErr, h, hs]
    exact ⟨_, validateTextReview_error hm, hm⟩
  · have hm : (⟨"confidence", literalMsg⟩ : FieldError) ∈ analyzeErrors r := by
      simp [analyzeErrors, litErr, h, hs]
    exact ⟨_, validateTextAnalyze_error hm, hm⟩
  · have hm : (⟨"refactor_type", literalMsg⟩ : FieldError) ∈ refactorErrors r := by
      simp [refactorErrors, litErr, h, hs]
    exact ⟨_, validateTextRefactor_error hm, hm⟩

/-- A raw Analyze submission with the out-of-vocabulary
`analysis_type = "unknown"`. -/
def c6RawAnalyze : RawTextAnalyzeRequest where
  step := some "start"
  step_number := some 1
  total_steps := some 1
  next_step_required := some true
  findings := some "notes"
  files_checked := none
  relevant_files := none
  relevant_context := none
  issues_found := none
  analysis_type := some "unknown"
  output_format := none
  confidence := none
  backtrack_from_step := none

/-- A raw Refactor submission with `confidence = "certain"`, which is not in
the Refactor vocabulary. -/
def c6RawRefactor : RawTextRefactorRequest where
  step := some "start"
  step_number := some 1
  total_steps := some 1
  next_step_required := some true
  findings := some "notes"
  files_checked := none
  relevant_files := none
  relevant_context := none
  issues_found := none
  refactor_type := none
  focus_areas := none
  style_guide_examples := none
  confidence := some "certain"
  backtrack_from_step := none

/-- A raw Review submission with all required fields present and valid. -/
def c6RawReview : RawTextReviewRequest where
  step := some "start"
  step_number := some 1
  total_steps := some 1
  next_step_required := some true
  findings := some "notes"
  files_checked := none
  relevant_files := none
  relevant_context := none
  issues_found := none
  review_type := none
  severity_filter := none
  standards := none
  confidence := none
  backtrack_from_step := none

/-- Witness for C6 at concrete out-of-vocabulary submissions covering all
six tool-field pairs: the spec's two scenarios plus an invalid value for
each remaining classification and confidence field. -/
theorem C6_enum_rejection_witness :
    (∃ errs, validateTextAnalyze c6RawAnalyze = .error errs ∧
      (⟨"analysis_type", literalMsg⟩ : FieldError) ∈ errs) ∧
    (∃ errs, validateTextRefactor c6RawRefactor = .error errs ∧
      (⟨"confidence", literalMsg⟩ : FieldError) ∈ errs) ∧
    (∃ errs, validateTextReview { c6RawReview with review_type := some "unknown" } =
        .error errs ∧
      (⟨"review_type", literalMsg⟩ : FieldError) ∈ errs) ∧
    (∃ errs, validateTextReview { c6RawReview with confidence := some "complete" } =
        .error errs ∧
      (⟨"confidence", literalMsg⟩ : FieldError) ∈ errs) ∧
    (∃ errs, validateTextAnalyze { c6RawAnalyze with
          analysis_type := none, confidence := some "complete" } = .error errs ∧
      (⟨"confidence", literalMsg⟩ : FieldError) ∈ errs) ∧
    (∃ errs, validateTextRefactor { c6RawRefactor with
          confidence := none, refactor_type := some "unknown" } = .error errs ∧
      (⟨"refactor_type", literalMsg⟩ : FieldError) ∈ errs) :=
  ⟨C6_enum_rejection.1 c6RawAnalyze rfl,
   C6_enum_rejection.2.1 c6RawRefactor rfl,
   C6_enum_rejection.2.2.2.2.1
     { c6RawReview with review_type := some "unknown" } "unknown" rfl rfl,
   C6_enum_rejection.2.2.2.2.2.1
     { c6RawReview with confidence := some "complete" } "complete" rfl rfl,
   C6_enum_rejection.2.2.2.2.2.2.1
     { c6RawAnalyze with analysis_type := none, confidence := some "complete" }
     "complete" rfl rfl,
   C6_enum_rejection.2.2.2.2.2.2.2
     { c6RawRefactor with confidence := none, refactor_type := some "unknown" }
     "unknown" rfl rfl⟩

/-- A raw Analyze submission, valid in every field, whose single
`issues_found` entry carries the severity `"bogus"`, outside the documented
set. -/
def c8RawAnalyze : RawTextAnalyzeRequest where
  step := some "look for issues"
  step_number := some 2
  total_steps := some 3
  next_step_required := some true
  findings := some "notes"
  files_checked := some []
  relevant_files := some []
  relevant_context := some []
  issues_found := some [[("severity", "bogus")]]
  analysis_type := some "general"
  output_format := some "detailed"
  confidence := some "low"
  backtrack_from_step := none

/-- Counterexample to C8: a record whose `issuesFound` entry has severity
`"bogus"` — outside `{critical, high, medium, low}` — is accepted by
validation, contradicting the claim that such records are rejected. -/
theorem C8_counterexample :
    c8RawAnalyze.issues_found = some [[("severity", "bogus")]] ∧
    ("bogus" ∉ ["critical", "high", "medium", "low"]) ∧
    validateTextAnalyze c8RawAnalyze = .ok (parseTextAnalyze c8RawAnalyze) ∧
    (parseTextAnalyze c8RawAnalyze).issues_found = [[("severity", "bogus")]] := by
  refine ⟨rfl, by decide, ?_, rfl⟩
  have h : analyzeErrors c8RawAnalyze = [] := rfl
  simp [validateTextAnalyze, h]

/-- C8 as amended: validation never inspects `issuesFound` — the source
types it `list[dict[str, Any]]`, so the error list of every tool is
unchanged under any replacement of `issues_found`, and the severity
vocabulary `{critical, high, medium, low}` lives only in field
descriptions, not in validation. -/
theorem C8_issues_severity_unchecked :
    (∀ (r : RawTextAnalyzeRequest) (x : Option (List Issue)),
        analyzeErrors { r with issues_found := x } = analyzeErrors r) ∧
    (∀ (r : RawTextRefactorRequest) (x : Option (List Issue)),
        refactorErrors { r with issues_found := x } = refactorErrors r) ∧
    (∀ (r : RawTextReviewRequest) (x : Option (List Issue)),
        reviewErrors { r with issues_found := x } = reviewErrors r) :=
  ⟨fun _ _ => rfl, fun _ _ => rfl, fun _ _ => rfl⟩

/-- A raw Analyze submission whose `step` is the empty string and whose
other required fields are present and valid. -/
def c9RawAnalyze : RawTextAnalyzeRequest where
  step := some ""
  step_number := some 1
  total_steps := some 1
  next_step_required := some true
  findings := some "notes"
  files_checked := none
  relevant_files := none
  relevant_context := none
  issues_found := none
  analysis_type := none
  output_format := none
  confidence := none
  backtrack_from_step := none

/-- Counterexample to C9: the Analyze tool accepts a StepRecord whose `step`
is the empty string — the source declares `step: str = Field(...)` with no
minimum length, so validation does not reject it as the claim states. -/
theorem C9_counterexample :
    c9RawAnalyze.step = some "" ∧
    validateTextAnalyze c9RawAnalyze = .ok (parseTextAnalyze c9RawAnalyze) ∧
    (parseTextAnalyze c9RawAnalyze).step = "" := by
  refine ⟨rfl, ?_, rfl⟩
  have h : analyzeErrors c9RawAnalyze = [] := rfl
  simp [validateTextAnalyze, h]

/-- C9 as amended: `step` is required but otherwise opaque — every present
string value, the empty string included, passes every tool's validation
without a `step` error, and only an absent `step` produces one. -/
theorem C9_step_unvalidated :
    (∀ (r : RawTextAnalyzeRequest) (s : String),
        ∀ e ∈ analyzeErrors { r with step := some s }, e.field ≠ "step") ∧
    (∀ r : RawTextAnalyzeRequest, r.step = none →
        (⟨"step", requiredMsg⟩ : FieldError) ∈ analyzeErrors r) ∧
    (∀ (r : RawTextRefactorRequest) (s : String),
        ∀ e ∈ refactorErrors { r with step := some s }, e.field ≠ "step") ∧
    (∀ r : RawTextRefactorRequest, r.step = none →
        (⟨"step", requiredMsg⟩ : FieldError) ∈ refactorErrors r) ∧
    (∀ (r : RawTextReviewRequest) (s : String),
        ∀ e ∈ reviewErrors { r with step := some s }, e.field ≠ "step") ∧
    (∀ r : RawTextReviewRequest, r.step = none →
        (⟨"step", requiredMsg⟩ : FieldError) ∈ reviewErrors r) := by
  refine ⟨fun r s e he => ?_, fun r h => ?_, fun r s e he => ?_,
    fun r h => ?_, fun r s e he => ?_, fun r h => ?_⟩
  · simp only [analyzeErrors, reqErr_some, List.nil_append, List.mem_append] at he
    rcases he with ((((((h | h) | h) | h) | h) | h) | h) | h
    · rw [geOneErr_field h]; decide
    · rw [geOneErr_field h]; decide
    · rw [reqErr_field h]; decide
    · rw [reqErr_field h]; decide
    · rw [litErr_field h]; decide
    · rw [litErr_field h]; decide
    · rw [litErr_field h]; decide
    · rw [optGeOneErr_field h]; decide
  · simp [analyzeErrors, reqErr, h]
  · simp only [refactorErrors, reqErr_some, List.nil_append, List.mem_append] at he
    rcases he with (((((h | h) | h) | h) | h) | h) | h
    · rw [geOneErr_field h]; decide
    · rw [geOneErr_field h]; decide
    · rw [reqErr_field h]; decide
    · rw [reqErr_field h]; decide
    · rw [litErr_field h]; decide
    · rw [litErr_field h]; decide
    · rw [optGeOneErr_field h]; decide
  · simp [refactorErrors, reqErr, h]
  · simp only [reviewErrors, reqErr_some, List.nil_append, List.mem_append] at he
    rcases he with ((((((h | h) | h) | h) | h) | h) | h) | h
    · rw [geOneErr_field h]; decide
    · rw [geOneErr_field h]; decide
    · rw [reqErr_field h]; decide
    · rw [reqErr_field h]; decide
    · rw [litErr_field h]; decide
    · rw [litErr_field h]; decide
    · rw [litErr_field h]; decide
    · rw [optGeOneErr_field h]; decide
  · simp [reviewErrors, reqErr, h]

/-- Witness for C9's amended theorem: the empty-step record produces no
`step` error, and the findings-less record of C3 with its `step` removed
produces the required-field error. -/
theorem C9_step_unvalidated_witness :
    (∀ e ∈ analyzeErrors { c9RawAnalyze with step := some "" }, e.field ≠ "step") ∧
    (⟨"step", requiredMsg⟩ : FieldError) ∈
      analyzeErrors { c9RawAnalyze with step := none } :=
  ⟨C9_step_unvalidated.1 c9RawAnalyze "",
   C9_step_unvalidated.2.1 { c9RawAnalyze with step := none } rfl⟩

/-- A valid Review record with a non-empty `relevant_context`, used to show
the Review formatter ignores it. -/
def c4ReviewRec : TextReviewRequest where
  step := "assess clarity"
  step_number := 2
  total_steps := 3
  next_step_required := true
  findings := "some findings"
  files_checked := []
  relevant_files := []
  relevant_context := ["theme1"]
  issues_found := []
  review_type := .clarity
  severity_filter := .all
  standards := none
  confidence := .low
  backtrack_from_step := none

/-- Counterexample to C4: a valid Review record with non-empty
`relevantContext` whose expert-handoff context contains no themes/focus
section at all — the Review tool's formatter never reads
`relevant_context`, so the claim fails for the Review tool. -/
theorem C4_counterexample :
    c4ReviewRec.Valid ∧
    c4ReviewRec.relevant_context = ["theme1"] ∧
    TextReviewTool.expert_context_parts c4ReviewRec =
      [ "TEXT REVIEW REQUEST - CLARITY",
        "Review confidence: low",
        "Step 2 of 3",
        "",
        "REVIEW FINDINGS:",
        "some findings" ] ∧
    "- theme1" ∉ TextReviewTool.expert_context_parts c4ReviewRec ∧
    "KEY THEMES/ARGUMENTS:" ∉ TextReviewTool.expert_context_parts c4ReviewRec := by
  refine ⟨by decide, rfl, by decide, by decide, by decide⟩

/-- C4 as amended: for the Analyze tool (over `relevantContext`) and the
Refactor tool (over `focusAreas`), a non-empty themes/focus collection
yields, after the findings and any issues section, a themes/focus section
with one line per entry in original order; the Review tool's formatter emits
no themes/focus section — its output is unchanged under any value of
`relevant_context`. -/
theorem C4_themes_section :
    (∀ r : TextAnalyzeRequest, r.relevant_context ≠ [] →
        TextAnalyzeTool.expert_context_parts r =
          ([ "TEXT ANALYSIS REQUEST - " ++ pyUpper r.analysis_type.toStr,
             "Analysis confidence: " ++ r.confidence.toStr,
             "Step " ++ toString r.step_number ++ " of " ++ toString r.total_steps,
             "",
             "ANALYSIS FINDINGS:",
             r.findings ]
           ++ (if r.issues_found.isEmpty then []
               else ["", "ISSUES IDENTIFIED:"] ++
                 r.issues_found.map (fun i => "- " ++ reprIssue i)))
          ++ (["", "KEY THEMES/ARGUMENTS:"] ++
              r.relevant_context.map (fun c => "- " ++ c))) ∧
    (∀ r : TextRefactorRequest, r.focus_areas ≠ [] →
        TextRefactorTool.expert_context_parts r =
          ([ "TEXT REFACTORING REQUEST - " ++ pyUpper r.refactor_type.toStr,
             "Refactoring confidence: " ++ r.confidence.toStr,
             "Step " ++ toString r.step_number ++ " of " ++ toString r.total_steps,
             "",
             "REFACTORING FINDINGS:",
             r.findings ]
           ++ (if r.issues_found.isEmpty then []
               else ["", "REFACTORING OPPORTUNITIES:"] ++
                 r.issues_found.map (fun i => "- " ++ reprIssue i)))
          ++ (["", "FOCUS AREAS:"] ++
              r.focus_areas.map (fun a => "- " ++ a))) ∧
    (∀ (r : TextReviewRequest) (x : List String),
        TextReviewTool.expert_context_parts { r with relevant_context := x } =
          TextReviewTool.expert_context_parts r) := by
  refine ⟨fun r h => ?_, fun r h => ?_, fun r x => rfl⟩
  · have hne : r.relevant_context.isEmpty = false := by
      simp [List.isEmpty_iff, h]
    simp [TextAnalyzeTool.expert_context_parts, hne, List.append_assoc]
  · have hne : r.focus_areas.isEmpty = false := by
      simp [List.isEmpty_iff, h]
    simp [TextRefactorTool.expert_context_parts, hne, List.append_assoc]

/-- Witness for C4's amended theorem: an Analyze record with one theme gets
the themes section; the Review formatter is unchanged when the context list
of `c4ReviewRec` is replaced by the empty list. -/
theorem C4_themes_section_witness :
    TextAnalyzeTool.expert_context_parts
        { sampleAnalyze with relevant_context := ["theme1"] } =
      [ "TEXT ANALYSIS REQUEST - GENERAL",
        "Analysis confidence: exploring",
        "Step 1 of 2",
        "",
        "ANALYSIS FINDINGS:",
        "initial findings",
        "",
        "KEY THEMES/ARGUMENTS:",
        "- theme1" ] ∧
    TextReviewTool.expert_context_parts { c4ReviewRec with relevant_context := [] } =
      TextReviewTool.expert_context_parts c4ReviewRec := by
  constructor
  · rw [C4_themes_section.1 { sampleAnalyze with relevant_context := ["theme1"] }
      (by decide)]
    decide
  · exact C4_themes_section.2.2 c4ReviewRec []

/-- C5: with findings F, non-empty issues I and an empty themes collection,
each formatter's parts are exactly the header block, F verbatim, and the
issues section with one `- ` line per entry of I in original order — so F
occurs verbatim, the issue lines occur in order, and no themes section is
appended. With I also empty, the parts are the header block alone: empty
collections produce no section headers. -/
theorem C5_formatting_order :
    (∀ r : TextAnalyzeRequest, r.issues_found ≠ [] → r.relevant_context = [] →
        TextAnalyzeTool.expert_context_parts r =
          [ "TEXT ANALYSIS REQUEST - " ++ pyUpper r.analysis_type.toStr,
            "Analysis confidence: " ++ r.confidence.toStr,
            "Step " ++ toString r.step_number ++ " of " ++ toString r.total_steps,
            "",
            "ANALYSIS FINDINGS:",
            r.findings,
            "",
            "ISSUES IDENTIFIED:" ]
            ++ r.issues_found.map (fun i => "- " ++ reprIssue i) ∧
        r.findings ∈ TextAnalyzeTool.expert_context_parts r ∧
        (r.issues_found.map (fun i => "- " ++ reprIssue i)).Sublist
          (TextAnalyzeTool.expert_context_parts r)) ∧
    (∀ r : TextReviewRequest, r.issues_found ≠ [] → r.relevant_context = [] →
        TextReviewTool.expert_context_parts r =
          [ "TEXT REVIEW REQUEST - " ++ pyUpper r.review_type.toStr,
            "Review confidence: " ++ r.confidence.toStr,
            "Step " ++ toString r.step_number ++ " of " ++ toString r.total_steps,
            "",
            "REVIEW FINDINGS:",
            r.findings,
            "",
            "ISSUES IDENTIFIED:" ]
            ++ r.issues_found.map (fun i => "- " ++ reprIssue i) ∧
        r.findings ∈ TextReviewTool.expert_context_parts r ∧
        (r.issues_found.map (fun i => "- " ++ reprIssue i)).Sublist
          (TextReviewTool.expert_context_parts r)) ∧
    (∀ r : TextRefactorRequest, r.issues_found ≠ [] → r.focus_areas = [] →
        TextRefactorTool.expert_context_parts r =
          [ "TEXT REFACTORING REQUEST - " ++ pyUpper r.refactor_type.toStr,
            "Refactoring confidence: " ++ r.confidence.toStr,
            "Step " ++ toString r.step_number ++ " of " ++ toString r.total_steps,
            "",
            "REFACTORING FINDINGS:",
            r.findings,
            "",
            "REFACTORING OPPORTUNITIES:" ]
            ++ r.issues_found.map (fun i => "- " ++ reprIssue i) ∧
        r.findings ∈ TextRefactorTool.expert_context_parts r ∧
        (r.issues_found.map (fun i => "- " ++ reprIssue i)).Sublist
          (TextRefactorTool.expert_context_parts r)) ∧
    (∀ r : TextAnalyzeRequest, r.issues_found = [] → r.relevant_context = [] →
        TextAnalyzeTool.expert_context_parts r =
          [ "TEXT ANALYSIS REQUEST - " ++ pyUpper r.analysis_type.toStr,
            "Analysis confidence: " ++ r.confidence.toStr,
            "Step " ++ toString r.step_number ++ " of " ++ toString r.total_steps,
            "",
            "ANALYSIS FINDINGS:",
            r.findings ]) := by
  refine ⟨fun r hi hc => ?_, fun r hi hc => ?_, fun r hi hc => ?_,
    fun r hi hc => ?_⟩
  · have hne : r.issues_found.isEmpty = false := by
      simp [List.isEmpty_iff, hi]
    have he : TextAnalyzeTool.expert_context_parts r =
        [ "TEXT ANALYSIS REQUEST - " ++ pyUpper r.analysis_type.toStr,
          "Analysis confidence: " ++ r.confidence.toStr,
          "Step " ++ toString r.step_number ++ " of " ++ toString r.total_steps,
          "",
          "ANALYSIS FINDINGS:",
          r.findings,
          "",
          "ISSUES IDENTIFIED:" ]
          ++ r.issues_found.map (fun i => "- " ++ reprIssue i) := by
      simp [TextAnalyzeTool.expert_context_parts, hne, hc]
    refine ⟨he, ?_, ?_⟩
    · rw [he]; simp
    · rw [he]; exact List.sublist_append_right _ _
  · have hne : r.issues_found.isEmpty = false := by
      simp [List.isEmpty_iff, hi]
    have he : TextReviewTool.expert_context_parts r =
        [ "TEXT REVIEW REQUEST - " ++ pyUpper r.review_type.toStr,
          "Review confidence: " ++ r.confidence.toStr,
          "Step " ++ toString r.step_number ++ " of " ++ toString r.total_steps,
          "",
          "REVIEW FINDINGS:",
          r.findings,
          "",
          "ISSUES IDENTIFIED:" ]
          ++ r.issues_found.map (fun i => "- " ++ reprIssue i) := by
      simp [TextReviewTool.expert_context_parts, hne]
    refine ⟨he, ?_, ?_⟩
    · rw [he]; simp
    · rw [he]; exact List.sublist_append_right _ _
  · have hne : r.issues_found.isEmpty = false := by
      simp [List.isEmpty_iff, hi]
    have he : TextRefactorTool.expert_context_parts r =
        [ "TEXT REFACTORING REQUEST - " ++ pyUpper r.refactor_type.toStr,
          "Refactoring confidence: " ++ r.confidence.toStr,
          "Step " ++ toString r.step_number ++ " of " ++ toString r.total_steps,
          "",
          "REFACTORING FINDINGS:",
          r.findings,
          "",
          "REFACTORING OPPORTUNITIES:" ]
          ++ r.issues_found.map (fun i => "- " ++ reprIssue i) := by
      simp [TextRefactorTool.expert_context_parts, hne, hc]
    refine ⟨he, ?_, ?_⟩
    · rw [he]; simp
    · rw [he]; exact List.sublist_append_right _ _
  · simp [TextAnalyzeTool.expert_context_parts, hi, hc]

/-- Witness for C5 at a concrete Analyze record with two issues and empty
themes: the parts are the header block plus the two issue lines in order. -/
theorem C5_formatting_order_witness :
    TextAnalyzeTool.expert_context_parts
        { sampleAnalyze with
            issues_found := [[("severity", "high")], [("severity", "low")]] } =
      [ "TEXT ANALYSIS REQUEST - GENERAL",
        "Analysis confidence: exploring",
        "Step 1 of 2",
        "",
        "ANALYSIS FINDINGS:",
        "initial findings",
        "",
        "ISSUES IDENTIFIED:",
        "- \x7b\x27severity\x27: \x27high\x27\x7d",
        "- \x7b\x27severity\x27: \x27low\x27\x7d" ] := by
  rw [(C5_formatting_order.1
    { sampleAnalyze with
        issues_found := [[("severity", "high")], [("severity", "low")]] }
    (by decide) rfl).1]
  decide

/-- C10: with the classification field omitted, Refactor defaults to
`organization` and Review to `comprehensive` — both content-heavy, so those
tools embed files at every step — while Analyze defaults to `general`, which
is not content-heavy, so an Analyze record with omitted `analysis_type`,
empty `relevant_files` and a step number above 1 does not embed files. -/
theorem C10_classification_defaults :
    (∀ r : RawTextRefactorRequest, r.refactor_type = none →
        (parseTextRefactor r).refactor_type = RefactorType.organization ∧
        TextRefactorTool.should_embed_files_as_context (parseTextRefactor r) = true) ∧
    (∀ r : RawTextReviewRequest, r.review_type = none →
        (parseTextReview r).review_type = ReviewType.comprehensive ∧
        TextReviewTool.should_embed_files_as_context (parseTextReview r) = true) ∧
    (∀ r : RawTextAnalyzeRequest, r.analysis_type = none →
        (parseTextAnalyze r).analysis_type = AnalysisType.general) ∧
    (∀ r : RawTextAnalyzeRequest, r.analysis_type = none →
        (parseTextAnalyze r).relevant_files = [] →
        1 < (parseTextAnalyze r).step_number →
        TextAnalyzeTool.should_embed_files_as_context (parseTextAnalyze r) = false) := by
  refine ⟨fun r h => ?_, fun r h => ?_, fun r h => ?_, fun r h hrf hsn => ?_⟩
  · have ht : (parseTextRefactor r).refactor_type = RefactorType.organization := by
      simp [parseTextRefactor, parseLit, h]
    refine ⟨ht, ?_⟩
    unfold TextRefactorTool.should_embed_files_as_context
    split_ifs <;> simp [ht]
  · have ht : (parseTextReview r).review_type = ReviewType.comprehensive := by
      simp [parseTextReview, parseLit, h]
    refine ⟨ht, ?_⟩
    unfold TextReviewTool.should_embed_files_as_context
    split_ifs <;> simp [ht]
  · simp [parseTextAnalyze, parseLit, h]
  · have ht : (parseTextAnalyze r).analysis_type = AnalysisType.general := by
      simp [parseTextAnalyze, parseLit, h]
    have h1 : ((parseTextAnalyze r).step_number == 1) = false := by
      rw [beq_eq_false_iff_ne]; omega
    unfold TextAnalyzeTool.should_embed_files_as_context
    simp [h1, hrf, ht]

/-- A raw Refactor submission with `refactor_type` omitted, at step 2. -/
def c10RawRefactor : RawTextRefactorRequest where
  step := some "reorganize"
  step_number := some 2
  total_steps := some 2
  next_step_required := some true
  findings := some "f"
  files_checked := none
  relevant_files := none
  relevant_context := none
  issues_found := none
  refactor_type := none
  focus_areas := none
  style_guide_examples := none
  confidence := none
  backtrack_from_step := none

/-- A raw Analyze submission with `analysis_type` omitted, empty
`relevant_files`, at step 2. -/
def c10RawAnalyze : RawTextAnalyzeRequest where
  step := some "analyze"
  step_number := some 2
  total_steps := some 2
  next_step_required := some true
  findings := some "f"
  files_checked := none
  relevant_files := none
  relevant_context := none
  issues_found := none
  analysis_type := none
  output_format := none
  confidence := none
  backtrack_from_step := none

/-- Witness for C10 at concrete omitted-classification submissions. -/
theorem C10_classification_defaults_witness :
    TextRefactorTool.should_embed_files_as_context
      (parseTextRefactor c10RawRefactor) = true ∧
    TextAnalyzeTool.should_embed_files_as_context
      (parseTextAnalyze c10RawAnalyze) = false :=
  ⟨(C10_classification_defaults.1 c10RawRefactor rfl).2,
   C10_classification_defaults.2.2.2 c10RawAnalyze rfl rfl (by decide)⟩

end ZenTextTools
